import Mathlib

/-!
Verification development for the Everything Search MCP server
(`src/server.js`).  The server exposes one `search` tool: it validates an
untyped argument bag against a zod schema, issues an HTTP GET against the
Everything Search engine, and renders the JSON response as text.  The
definitions below are a shallow embedding of that pipeline:

* JSON-ish values are modelled by `JVal` (the primitive values the schema
  and the response fields take).  JSON numbers are modelled by `ℤ`: the
  schema and the response handling only compare numbers and print them,
  and every numeric value appearing in the claims is integral, where
  JavaScript float semantics and integer semantics agree.
* `BigInt` arithmetic is modelled by `ℤ` (exact, as in JS).
* The float value of the byte-size loop after `i` divisions by 1024 is
  exactly `n / 1024 ^ i` for the parsed integer `n`; the embedding keeps
  the pair `(n, i)` and performs the `>= 1024` guard and the `toFixed(2)`
  rounding as exact integer computations on that representation.
* The `Date` local calendar decomposition (`getFullYear` / `getMonth` /
  `getDate`) is the standard civil-from-days conversion applied at an
  explicit timezone offset `tz` (in milliseconds).
* `toLocaleString` is abstracted: the time formatter returns a
  `TimeRender` value and rendering applies an arbitrary locale function
  to the computed Unix millisecond value.
-/

namespace EverythingSearch

/-- Primitive JSON values, as inspected by the zod schema and the
response handling code (`typeof`-based checks). -/
inductive JVal where
  | str (s : String)
  | num (k : ℤ)
  | bool (b : Bool)
  | null
deriving DecidableEq

/-- The four values accepted by the `sortBy` enum of `SearchSchema`. -/
inductive SortBy where
  | name
  | path
  | size
  | date_modified
deriving DecidableEq

/-- The query-string value of a `SortBy` value (`sort=<sortBy>`). -/
def SortBy.toParam : SortBy → String
  | .name => "name"
  | .path => "path"
  | .size => "size"
  | .date_modified => "date_modified"

/-- One entry of the engine's JSON response (`RawSearchResult`). -/
structure RawResult where
  name : String
  path : String
  size : Option String
  date_modified : Option String
  type : Option String
deriving DecidableEq

/-- The JSON body of the engine's response (`response.data`): both fields
may be absent, which the server checks for. -/
structure RespBody where
  totalResults : Option JVal
  results : Option (List RawResult)
deriving DecidableEq

/-- The value `searchFiles` resolves with after its response checks:
`totalResults` is known to be present and `results` to be a list. -/
structure NormalizedResponse where
  totalResults : JVal
  results : List RawResult
deriving DecidableEq

/-- Decimal value of a list of digit characters (most significant first). -/
def digitsVal (cs : List Char) : ℕ :=
  cs.foldl (fun acc c => 10 * acc + (c.toNat - 48)) 0

/-- Value of a digit list when it is nonempty and all digits, else `none`. -/
def allDigitsVal (cs : List Char) : Option ℕ :=
  if cs.isEmpty then none
  else if cs.all (fun c => c.isDigit) then some (digitsVal cs)
  else none

/-- Leading digit run of a character list, as a value; `none` when the
list does not start with a digit. -/
def leadingDigitsVal (cs : List Char) : Option ℕ :=
  let ds := cs.takeWhile (fun c => c.isDigit)
  if ds.isEmpty then none else some (digitsVal ds)

/-- Models JavaScript `parseInt(s)` on radix-10 input: leading whitespace
is skipped, an optional sign is read, and the value is that of the longest
leading digit run; `none` (JS `NaN`) when no digit follows.  (The `0x`
hex prefix of `parseInt` is not modelled; no claim involves hex input.
Float rounding of extremely long digit strings is also not modelled.) -/
def jsParseInt (s : String) : Option ℤ :=
  match s.data.dropWhile (fun c => c.isWhitespace) with
  | [] => none
  | c :: rest =>
    if c == '-' then (leadingDigitsVal rest).map (fun n => -(n : ℤ))
    else if c == '+' then (leadingDigitsVal rest).map (fun n => (n : ℤ))
    else (leadingDigitsVal (c :: rest)).map (fun n => (n : ℤ))

/-- Models JavaScript `BigInt(s)` on decimal input: surrounding whitespace
is ignored, the empty string is `0`, and otherwise the whole string must
be an optional sign followed by digits; `none` models the thrown
`SyntaxError`.  (The `0x`/`0o`/`0b` prefixes are not modelled; no claim
involves them.) -/
def parseBigInt (s : String) : Option ℤ :=
  let cs :=
    ((s.data.dropWhile (fun c => c.isWhitespace)).reverse.dropWhile
      (fun c => c.isWhitespace)).reverse
  match cs with
  | [] => some 0
  | c :: rest =>
    if c == '-' then (allDigitsVal rest).map (fun n => -(n : ℤ))
    else if c == '+' then (allDigitsVal rest).map (fun n => (n : ℤ))
    else (allDigitsVal (c :: rest)).map (fun n => (n : ℤ))

/-- The unit table of `formatFileSize`. -/
def unitName (i : ℕ) : String :=
  ["bytes", "KB", "MB", "GB", "TB"].getD i "TB"

/-- The `while (value >= 1024 && unitIndex < units.length - 1)` loop of
`formatFileSize`, on the exact representation: after `i` divisions the
float `value` is exactly `n / 1024 ^ i`, so the guard `value >= 1024`
is the integer comparison `1024 ^ (i + 1) ≤ n`.  The guard `i < 4`
bounds the iteration count by four, so fuel `4` makes the recursion
structural without changing the result. -/
def unitIndexFuel : ℕ → ℤ → ℕ → ℕ
  | 0, _, i => i
  | fuel + 1, n, i =>
    if 1024 ^ (i + 1) ≤ n ∧ i < 4 then unitIndexFuel fuel n (i + 1) else i

/-- The final unit index of the byte-size division loop started at
`value = n`, `unitIndex = 0`. -/
def unitIndex (n : ℤ) : ℕ :=
  unitIndexFuel 4 n 0

/-- Digits-after-the-point rendering of a nonnegative hundredth count. -/
def fixed2String (n : ℕ) : String :=
  toString (n / 100) ++ "." ++ (if n % 100 < 10 then "0" else "") ++ toString (n % 100)

/-- Rounding step of `Number.prototype.toFixed(2)` applied to the exact
quotient `n / 1024 ^ i`, for `0 ≤ n`: the count of hundredths nearest to
the quotient, ties resolved toward the larger value (ECMA-262 picks the
larger candidate), i.e. `⌊(n / 1024 ^ i) * 100 + 1 / 2⌋` — see
`toFixed2Hundredths_eq_floor`. -/
def toFixed2Hundredths (n : ℤ) (i : ℕ) : ℤ :=
  (200 * n + 1024 ^ i) / (2 * 1024 ^ i)

/-- Models `Number.prototype.toFixed(2)` on the value `n / 1024 ^ i`:
a negative value is rendered as the sign followed by `toFixed(2)` of its
negation, as in ECMA-262. -/
def toFixed2Div (n : ℤ) (i : ℕ) : String :=
  if n < 0 then "-" ++ fixed2String (toFixed2Hundredths (-n) i).toNat
  else fixed2String (toFixed2Hundredths n i).toNat

/-- Port of `formatFileSize` from `src/server.js`: `"N/A"` for a missing or empty
(falsy) value and for input `parseInt` cannot read a number from;
otherwise the parsed value is divided by 1024 while at least 1024 (unit
index capped below 4) and rendered via `toFixed(2)` with a unit suffix. -/
def formatFileSize (size : Option String) : String :=
  match size with
  | none => "N/A"
  | some s =>
    if s = "" then "N/A"
    else
      match jsParseInt s with
      | none => "N/A"
      | some n =>
        let i := unitIndex n
        toFixed2Div n i ++ " " ++ unitName i

/-- Civil calendar date `(year, month, day)` of a day count relative to
1970-01-01 (Howard Hinnant's `civil_from_days`, the standard proleptic
Gregorian conversion implemented by ECMAScript `Date`). -/
def civilFromDays (z : ℤ) : ℤ × ℤ × ℤ :=
  let zs := z + 719468
  let era := zs / 146097
  let doe := zs - era * 146097
  let yoe := (doe - doe / 1460 + doe / 36524 - doe / 146096) / 365
  let y := yoe + era * 400
  let doy := doe - (365 * yoe + yoe / 4 - yoe / 100)
  let mp := (5 * doy + 2) / 153
  let dom := doy - (153 * mp + 2) / 5 + 1
  let m := mp + (if mp < 10 then 3 else -9)
  (y + (if m ≤ 2 then 1 else 0), m, dom)

/-- Local day number of a Unix millisecond instant at timezone offset
`tz` milliseconds (ECMA-262 `Day(LocalTime(t))`). -/
def localDays (tz ms : ℤ) : ℤ :=
  (ms + tz) / 86400000

/-- Models `Date.prototype.getFullYear` at timezone offset `tz`. -/
def jsGetFullYear (tz ms : ℤ) : ℤ :=
  (civilFromDays (localDays tz ms)).1

/-- Models `Date.prototype.getMonth` (0-based month) at offset `tz`. -/
def jsGetMonth (tz ms : ℤ) : ℤ :=
  (civilFromDays (localDays tz ms)).2.1 - 1

/-- Models `Date.prototype.getDate` (day of month) at offset `tz`. -/
def jsGetDate (tz ms : ℤ) : ℤ :=
  (civilFromDays (localDays tz ms)).2.2

/-- Outcome of `formatFileTime`, with the locale rendering abstracted:
`locale ms` stands for `new Date(ms).toLocaleString()`. -/
inductive TimeRender where
  | noDate
  | invalidDate
  | locale (unixMs : ℤ)
deriving DecidableEq

/-- The string a `TimeRender` outcome produces, given the host's locale
rendering function. -/
def TimeRender.render (lf : ℤ → String) : TimeRender → String
  | .noDate => "No date"
  | .invalidDate => "Invalid date"
  | .locale ms => lf ms

/-- Port of `formatFileTime` from `src/server.js`: falsy/`""`/`"0"` inputs give
"No date"; a failed `BigInt` conversion gives "Invalid date"; a zero
`BigInt` gives "No date"; otherwise the FILETIME tick count is divided by
10000 (BigInt division truncates toward zero) and shifted by the fixed
epoch difference, and a resulting local date of 1980-02-01 gives
"No date" while anything else is locale-rendered. -/
def formatFileTime (tz : ℤ) (fileTime : Option String) : TimeRender :=
  match fileTime with
  | none => .noDate
  | some s =>
    if s = "" ∨ s = "0" then .noDate
    else
      match parseBigInt s with
      | none => .invalidDate
      | some t =>
        if t = 0 then .noDate
        else
          let unixMs := Int.tdiv t 10000 - 11644473600000
          if jsGetFullYear tz unixMs = 1980 ∧ jsGetMonth tz unixMs = 1 ∧
              jsGetDate tz unixMs = 1 then .noDate
          else .locale unixMs

example : civilFromDays 0 = (1970, 1, 1) := by decide

example : civilFromDays 3683 = (1980, 2, 1) := by decide

example : jsParseInt "1024" = some 1024 := by decide

example : jsParseInt "0" = some 0 := by decide

example : jsParseInt "abc" = none := by decide

example : formatFileSize (some "1024") = "1.00 KB" := by decide

example : formatFileSize (some "1048576") = "1.00 MB" := by decide

example : formatFileSize (some "0") = "0.00 bytes" := by decide

example : formatFileSize (some "1536") = "1.50 KB" := by decide

example : formatFileSize none = "N/A" := by decide

example : parseBigInt "119626848000000000" = some 119626848000000000 := by decide

example : formatFileTime 0 (some "119626848000000000") = .noDate := by decide

example : formatFileTime 0 (some "130000000000000000") = .locale 1355526400000 := by decide

example : formatFileTime 0 (some "abc") = .invalidDate := by decide

example : formatFileTime 0 (some "00") = .noDate := by decide

/-- The untyped argument bag of a `callTool` request, restricted to the
ten keys `SearchSchema` inspects (zod ignores unknown keys).  `none`
models an absent key (JS `undefined`). -/
structure ArgBag where
  query : Option JVal
  scope : Option JVal
  caseSensitive : Option JVal
  wholeWord : Option JVal
  regex : Option JVal
  path : Option JVal
  maxResults : Option JVal
  sortBy : Option JVal
  ascending : Option JVal
  offset : Option JVal
deriving DecidableEq

/-- The validated parameter record produced by `SearchSchema.parse`
(every field defaulted, so all are present). -/
structure SearchParams where
  query : String
  scope : String
  caseSensitive : Bool
  wholeWord : Bool
  regex : Bool
  path : Bool
  maxResults : ℤ
  sortBy : SortBy
  ascending : Bool
  offset : ℤ
deriving DecidableEq

/-- Field parser for `z.string()` (required, no default): any present
string is accepted, anything else — including an absent key — fails. -/
def parseRequiredString : Option JVal → Option String
  | some (.str s) => some s
  | _ => none

/-- Field parser for `z.string().default(d)`. -/
def parseStringDefault (d : String) : Option JVal → Option String
  | none => some d
  | some (.str s) => some s
  | _ => none

/-- Field parser for `z.boolean().default(d)`. -/
def parseBoolDefault (d : Bool) : Option JVal → Option Bool
  | none => some d
  | some (.bool b) => some b
  | _ => none

/-- Field parser for `z.number().min(lo)` with an optional `.max(hi)` and
a `.default(d)`. -/
def parseNumberRange (lo : ℤ) (hi : Option ℤ) (d : ℤ) : Option JVal → Option ℤ
  | none => some d
  | some (.num k) =>
    if lo ≤ k then
      match hi with
      | none => some k
      | some h => if k ≤ h then some k else none
    else none
  | some _ => none

/-- Field parser for the `sortBy` enum with `.default('name')`. -/
def parseSortDefault : Option JVal → Option SortBy
  | none => some .name
  | some (.str s) =>
    if s = "name" then some .name
    else if s = "path" then some .path
    else if s = "size" then some .size
    else if s = "date_modified" then some .date_modified
    else none
  | some _ => none

/-- Port of `SearchSchema.parse` from `src/server.js`: the zod object schema with
`query: z.string()`, `scope: z.string().default("C:")`, four booleans
defaulting to `false`, `maxResults: z.number().min(1).max(1000).default(32)`,
the four-value `sortBy` enum defaulting to `'name'`,
`ascending: z.boolean().default(true)` and
`offset: z.number().min(0).default(0)`.  `none` models the thrown
`ZodError`. -/
def SearchSchema.parse (a : ArgBag) : Option SearchParams :=
  (parseRequiredString a.query).bind fun q =>
  (parseStringDefault "C:" a.scope).bind fun sc =>
  (parseBoolDefault false a.caseSensitive).bind fun cs =>
  (parseBoolDefault false a.wholeWord).bind fun ww =>
  (parseBoolDefault false a.regex).bind fun rg =>
  (parseBoolDefault false a.path).bind fun pa =>
  (parseNumberRange 1 (some 1000) 32 a.maxResults).bind fun mr =>
  (parseSortDefault a.sortBy).bind fun sb =>
  (parseBoolDefault true a.ascending).bind fun asc =>
  (parseNumberRange 0 none 0 a.offset).bind fun off =>
  some ⟨q, sc, cs, ww, rg, pa, mr, sb, asc, off⟩

/-- Whether a string's last character is a backslash, i.e. JavaScript
`s.endsWith('\\')`. -/
def endsWithBackslash (s : String) : Bool :=
  match s.data.getLast? with
  | some c => c == '\\'
  | none => false

/-- The `searchQuery` computed by `searchFiles`: a truthy (non-empty)
`scope` is prepended to the query, inserting a backslash unless `scope`
already ends with one; an empty `scope` leaves the query unchanged. -/
def effectiveQuery (p : SearchParams) : String :=
  if p.scope ≠ "" then
    if endsWithBackslash p.scope then p.scope ++ p.query
    else p.scope ++ "\\" ++ p.query
  else p.query

/-- A value of the outbound HTTP query string (axios serialises strings
and numbers; the server only sends these two shapes). -/
inductive QVal where
  | str (s : String)
  | num (k : ℤ)
deriving DecidableEq

/-- The `params` object of the axios GET issued by `searchFiles`, in
source order. -/
def buildQueryParams (p : SearchParams) : List (String × QVal) :=
  [("search", .str (effectiveQuery p)),
   ("json", .num 1),
   ("path_column", .num 1),
   ("size_column", .num 1),
   ("date_modified_column", .num 1),
   ("case", .num (if p.caseSensitive then 1 else 0)),
   ("wholeword", .num (if p.wholeWord then 1 else 0)),
   ("regex", .num (if p.regex then 1 else 0)),
   ("path", .num (if p.path then 1 else 0)),
   ("count", .num p.maxResults),
   ("offset", .num p.offset),
   ("sort", .str p.sortBy.toParam),
   ("ascending", .num (if p.ascending then 1 else 0))]

/-- The outcome of the axios GET, as observed by `searchFiles`' catch
logic: a resolved response carrying `response.data` (absent models a
falsy body), an axios error with its `code` and `message`, or a
non-axios error with its message. -/
inductive FetchOutcome where
  | success (data : Option RespBody)
  | axiosError (code : Option String) (message : String)
  | otherError (message : String)
deriving DecidableEq

/-- The guidance message thrown on `ECONNREFUSED`. -/
def connectionRefusedMessage : String :=
  "Could not connect to Everything Search. Make sure the HTTP server is enabled in Everything\x27s settings (Tools > Options > HTTP Server)."

/-- The message thrown on `ETIMEDOUT`. -/
def timeoutMessage : String :=
  "Everything Search API request timed out. The server might be busy or unresponsive."

/-- The message thrown when the response body is falsy or has no
`totalResults` field. -/
def invalidResponseMessage : String :=
  "Invalid response from Everything Search API"

/-- Port of `searchFiles` from `src/server.js`, as a function of the transport
outcome.  A falsy body or an absent `totalResults` throws the
invalid-response error (a plain `Error`, rethrown unchanged by the catch
block); an absent/falsy `results` is replaced by the empty list with
`totalResults` set to 0; axios errors are classified by `code`
(`ECONNREFUSED`, `ETIMEDOUT`, otherwise a wrapped message) and non-axios
errors are rethrown unchanged.  `Except.error` carries the thrown
error's message. -/
def searchFiles (out : FetchOutcome) : Except String NormalizedResponse :=
  match out with
  | .success data =>
    match data with
    | none => .error invalidResponseMessage
    | some body =>
      match body.totalResults with
      | none => .error invalidResponseMessage
      | some tr =>
        match body.results with
        | none => .ok ⟨.num 0, []⟩
        | some rs => .ok ⟨tr, rs⟩
  | .axiosError code msg =>
    if code = some "ECONNREFUSED" then .error connectionRefusedMessage
    else if code = some "ETIMEDOUT" then .error timeoutMessage
    else .error ("Everything Search API error: " ++ msg)
  | .otherError msg => .error msg

/-- JavaScript template-literal stringification of the primitive values
a `JVal` models. -/
def jvalDisplay : JVal → String
  | .str s => s
  | .num k => toString k
  | .bool b => if b then "true" else "false"
  | .null => "null"

/-- The `Size` column of one rendered block: the literal `"(folder)"`
when the entry's `type` is `"folder"`, otherwise the formatted size. -/
def sizeRendered (r : RawResult) : String :=
  if r.type = some "folder" then "(folder)" else formatFileSize r.size

/-- One rendered result block
(`Name: …\nPath: …\nSize: …\nModified: …\n`). -/
def formatResultBlock (tz : ℤ) (lf : ℤ → String) (r : RawResult) : String :=
  "Name: " ++ r.name ++ "\nPath: " ++ r.path ++ "\nSize: " ++ sizeRendered r ++
    "\nModified: " ++ (formatFileTime tz r.date_modified).render lf ++ "\n"

/-- The text of the tool response: the `Found N results:` summary line
followed by the joined blocks, or by `No results found` when the result
list is empty. -/
def renderResults (tz : ℤ) (lf : ℤ → String) (resp : NormalizedResponse) : String :=
  let formatted :=
    if resp.results.length > 0 then
      String.intercalate "\n" (resp.results.map (formatResultBlock tz lf))
    else "No results found"
  "Found " ++ jvalDisplay resp.totalResults ++ " results:\n\n" ++ formatted

/-- An error surfaced by the `callTool` handler: either the `ZodError`
of validation or a thrown search error with its message. -/
inductive ToolError where
  | validation
  | search (message : String)
deriving DecidableEq

/-- The `callTool` handler for the `search` tool: parse the arguments
(a `ZodError` propagates to the caller), run the search against the
transport outcome (every failure propagates), and render the text
response. -/
def handleSearch (tz : ℤ) (lf : ℤ → String) (a : ArgBag) (out : FetchOutcome) :
    Except ToolError String :=
  match SearchSchema.parse a with
  | none => .error .validation
  | some _ =>
    match searchFiles out with
    | .error e => .error (.search e)
    | .ok resp => .ok (renderResults tz lf resp)

example :
    SearchSchema.parse ⟨some (.str "x"), none, none, none, none, none, none, none, none, none⟩ =
      some ⟨"x", "C:", false, false, false, false, 32, .name, true, 0⟩ := by decide

example :
    SearchSchema.parse ⟨some (.str ""), none, none, none, none, none, none, none, none, none⟩ =
      some ⟨"", "C:", false, false, false, false, 32, .name, true, 0⟩ := by decide

example :
    SearchSchema.parse ⟨some (.str "x"), none, none, none, none, none, none, none, none,
      some (.num (-1))⟩ = none := by decide

example :
    handleSearch 0 (fun _ => "")
      ⟨some (.str "x"), none, none, none, none, none, none, none, none, none⟩
      (.success (some ⟨some (.num 3), none⟩)) =
    .ok "Found 0 results:\n\nNo results found" := rfl

example :
    searchFiles (.success (some ⟨some (.str "three"), some []⟩)) = .ok ⟨.str "three", []⟩ := rfl

example : effectiveQuery ⟨"q", "C:", false, false, false, false, 32, .name, true, 0⟩ = "C:\\q" := by
  decide

example :
    effectiveQuery ⟨"q", "C:\\", false, false, false, false, 32, .name, true, 0⟩ = "C:\\q" := by
  decide

example : effectiveQuery ⟨"q", "", false, false, false, false, 32, .name, true, 0⟩ = "q" := by
  decide

/-! ### Acceptance conditions of the schema, stated in the spec's terms -/

/-- Spec-side condition: `query` is present and a string. -/
def queryAccepted : Option JVal → Bool
  | some (.str _) => true
  | _ => false

/-- Spec-side condition: an optional string field is absent or a string. -/
def stringFieldAccepted : Option JVal → Bool
  | none => true
  | some (.str _) => true
  | _ => false

/-- Spec-side condition: an optional boolean field is absent or a
boolean. -/
def boolFieldAccepted : Option JVal → Bool
  | none => true
  | some (.bool _) => true
  | _ => false

/-- Spec-side condition: `maxResults` is absent or a number in
`[1, 1000]`. -/
def maxResultsAccepted : Option JVal → Bool
  | none => true
  | some (.num k) => decide (1 ≤ k) && decide (k ≤ 1000)
  | some _ => false

/-- Spec-side condition: `sortBy` is absent or one of the four
enumerated strings. -/
def sortByAccepted : Option JVal → Bool
  | none => true
  | some (.str s) => s == "name" || s == "path" || s == "size" || s == "date_modified"
  | some _ => false

/-- Spec-side condition: `offset` is absent or a number `≥ 0`. -/
def offsetAccepted : Option JVal → Bool
  | none => true
  | some (.num k) => decide (0 ≤ k)
  | some _ => false

lemma parseRequiredString_isSome (v : Option JVal) :
    (parseRequiredString v).isSome = queryAccepted v := by
  match v with
  | none => rfl
  | some (.str _) => rfl
  | some (.num _) => rfl
  | some (.bool _) => rfl
  | some .null => rfl

lemma parseStringDefault_isSome (d : String) (v : Option JVal) :
    (parseStringDefault d v).isSome = stringFieldAccepted v := by
  match v with
  | none => rfl
  | some (.str _) => rfl
  | some (.num _) => rfl
  | some (.bool _) => rfl
  | some .null => rfl

lemma parseBoolDefault_isSome (d : Bool) (v : Option JVal) :
    (parseBoolDefault d v).isSome = boolFieldAccepted v := by
  match v with
  | none => rfl
  | some (.str _) => rfl
  | some (.num _) => rfl
  | some (.bool _) => rfl
  | some .null => rfl

lemma parseMaxResults_isSome (v : Option JVal) :
    (parseNumberRange 1 (some 1000) 32 v).isSome = maxResultsAccepted v := by
  match v with
  | none => rfl
  | some (.str _) => rfl
  | some (.bool _) => rfl
  | some .null => rfl
  | some (.num k) =>
    simp only [parseNumberRange, maxResultsAccepted]
    split_ifs <;> simp_all

lemma parseOffset_isSome (v : Option JVal) :
    (parseNumberRange 0 none 0 v).isSome = offsetAccepted v := by
  match v with
  | none => rfl
  | some (.str _) => rfl
  | some (.bool _) => rfl
  | some .null => rfl
  | some (.num k) =>
    simp only [parseNumberRange, offsetAccepted]
    split_ifs <;> simp_all

lemma parseSortDefault_isSome (v : Option JVal) :
    (parseSortDefault v).isSome = sortByAccepted v := by
  match v with
  | none => rfl
  | some (.num _) => rfl
  | some (.bool _) => rfl
  | some .null => rfl
  | some (.str s) =>
    simp only [parseSortDefault, sortByAccepted]
    split_ifs <;> simp_all

lemma parse_isSome_decomp (a : ArgBag) :
    (SearchSchema.parse a).isSome =
      ((parseRequiredString a.query).isSome &&
       (parseStringDefault "C:" a.scope).isSome &&
       (parseBoolDefault false a.caseSensitive).isSome &&
       (parseBoolDefault false a.wholeWord).isSome &&
       (parseBoolDefault false a.regex).isSome &&
       (parseBoolDefault false a.path).isSome &&
       (parseNumberRange 1 (some 1000) 32 a.maxResults).isSome &&
       (parseSortDefault a.sortBy).isSome &&
       (parseBoolDefault true a.ascending).isSome &&
       (parseNumberRange 0 none 0 a.offset).isSome) := by
  unfold SearchSchema.parse
  cases parseRequiredString a.query with
  | none => simp
  | some q =>
    simp only [Option.some_bind, Option.isSome_some, Bool.true_and]
    cases parseStringDefault "C:" a.scope with
    | none => simp
    | some sc =>
      simp only [Option.some_bind, Option.isSome_some, Bool.true_and]
      cases parseBoolDefault false a.caseSensitive with
      | none => simp
      | some cs =>
        simp only [Option.some_bind, Option.isSome_some, Bool.true_and]
        cases parseBoolDefault false a.wholeWord with
        | none => simp
        | some ww =>
          simp only [Option.some_bind, Option.isSome_some, Bool.true_and]
          cases parseBoolDefault false a.regex with
          | none => simp
          | some rg =>
            simp only [Option.some_bind, Option.isSome_some, Bool.true_and]
            cases parseBoolDefault false a.path with
            | none => simp
            | some pa =>
              simp only [Option.some_bind, Option.isSome_some, Bool.true_and]
              cases parseNumberRange 1 (some 1000) 32 a.maxResults with
              | none => simp
              | some mr =>
                simp only [Option.some_bind, Option.isSome_some, Bool.true_and]
                cases parseSortDefault a.sortBy with
                | none => simp
                | some sb =>
                  simp only [Option.some_bind, Option.isSome_some, Bool.true_and]
                  cases parseBoolDefault true a.ascending with
                  | none => simp
                  | some asc =>
                    simp only [Option.some_bind, Option.isSome_some, Bool.true_and]
                    cases parseNumberRange 0 none 0 a.offset with
                    | none => simp
                    | some off => simp

/-- Field-by-field content of a successful parse. -/
lemma parse_fields (a : ArgBag) (p : SearchParams) (h : SearchSchema.parse a = some p) :
    parseRequiredString a.query = some p.query ∧
    parseStringDefault "C:" a.scope = some p.scope ∧
    parseBoolDefault false a.caseSensitive = some p.caseSensitive ∧
    parseBoolDefault false a.wholeWord = some p.wholeWord ∧
    parseBoolDefault false a.regex = some p.regex ∧
    parseBoolDefault false a.path = some p.path ∧
    parseNumberRange 1 (some 1000) 32 a.maxResults = some p.maxResults ∧
    parseSortDefault a.sortBy = some p.sortBy ∧
    parseBoolDefault true a.ascending = some p.ascending ∧
    parseNumberRange 0 none 0 a.offset = some p.offset := by
  unfold SearchSchema.parse at h
  rcases Option.bind_eq_some.mp h with ⟨q, hq, h⟩
  rcases Option.bind_eq_some.mp h with ⟨sc, hsc, h⟩
  rcases Option.bind_eq_some.mp h with ⟨cs, hcs, h⟩
  rcases Option.bind_eq_some.mp h with ⟨ww, hww, h⟩
  rcases Option.bind_eq_some.mp h with ⟨rg, hrg, h⟩
  rcases Option.bind_eq_some.mp h with ⟨pa, hpa, h⟩
  rcases Option.bind_eq_some.mp h with ⟨mr, hmr, h⟩
  rcases Option.bind_eq_some.mp h with ⟨sb, hsb, h⟩
  rcases Option.bind_eq_some.mp h with ⟨asc, hasc, h⟩
  rcases Option.bind_eq_some.mp h with ⟨off, hoff, h⟩
  cases h
  exact ⟨hq, hsc, hcs, hww, hrg, hpa, hmr, hsb, hasc, hoff⟩

lemma parseNumberRange_mem_range (lo h d : ℤ) (v : Option JVal) (k : ℤ)
    (hd : lo ≤ d ∧ d ≤ h) (hk : parseNumberRange lo (some h) d v = some k) :
    lo ≤ k ∧ k ≤ h := by
  match v with
  | none => simp only [parseNumberRange, Option.some.injEq] at hk; omega
  | some (.str _) => simp [parseNumberRange] at hk
  | some (.bool _) => simp [parseNumberRange] at hk
  | some .null => simp [parseNumberRange] at hk
  | some (.num m) =>
    simp only [parseNumberRange] at hk
    split_ifs at hk
    all_goals simp_all

/-! ### Properties of the byte-size division loop -/

lemma unitIndexFuel_ge (fuel : ℕ) (n : ℤ) (i : ℕ) : i ≤ unitIndexFuel fuel n i := by
  induction fuel generalizing i with
  | zero => simp [unitIndexFuel]
  | succ fuel ih =>
    simp only [unitIndexFuel]
    split_ifs with h
    · exact le_trans (Nat.le_succ i) (ih (i + 1))
    · exact le_refl i

lemma unitIndexFuel_le (fuel : ℕ) (n : ℤ) (i : ℕ) (h : i ≤ 4) :
    unitIndexFuel fuel n i ≤ 4 := by
  induction fuel generalizing i with
  | zero => simpa [unitIndexFuel]
  | succ fuel ih =>
    simp only [unitIndexFuel]
    split_ifs with hc
    · exact ih (i + 1) hc.2
    · exact h

lemma unitIndexFuel_term (fuel : ℕ) (n : ℤ) (i : ℕ) (hi : i ≤ 4) (hf : 4 - i ≤ fuel) :
    unitIndexFuel fuel n i = 4 ∨ n < 1024 ^ (unitIndexFuel fuel n i + 1) := by
  induction fuel generalizing i with
  | zero =>
    left
    simp only [unitIndexFuel]
    omega
  | succ fuel ih =>
    simp only [unitIndexFuel]
    split_ifs with hc
    · exact ih (i + 1) hc.2 (by omega)
    · rcases lt_or_ge n (1024 ^ (i + 1)) with hlt | hge
      · exact Or.inr hlt
      · left; omega

lemma unitIndexFuel_while (fuel : ℕ) (n : ℤ) (i : ℕ) :
    ∀ j, i ≤ j → j < unitIndexFuel fuel n i → 1024 ^ (j + 1) ≤ n := by
  induction fuel generalizing i with
  | zero =>
    intro j hij hj
    simp only [unitIndexFuel] at hj
    omega
  | succ fuel ih =>
    intro j hij hj
    simp only [unitIndexFuel] at hj
    split_ifs at hj with hc
    · rcases eq_or_lt_of_le hij with rfl | hlt
      · exact_mod_cast hc.1
      · exact ih (i + 1) j hlt hj
    · omega

lemma unitIndex_le (n : ℤ) : unitIndex n ≤ 4 :=
  unitIndexFuel_le 4 n 0 (by omega)

lemma unitIndex_term (n : ℤ) : unitIndex n = 4 ∨ n < 1024 ^ (unitIndex n + 1) :=
  unitIndexFuel_term 4 n 0 (by omega) (by omega)

lemma unitIndex_while (n : ℤ) : ∀ j, j < unitIndex n → 1024 ^ (j + 1) ≤ n :=
  fun j hj => unitIndexFuel_while 4 n 0 j (Nat.zero_le j) hj

/-- The integer rounding step of `toFixed2Div` is exactly
`⌊(n / 1024 ^ i) * 100 + 1 / 2⌋` on the rational quotient. -/
lemma toFixed2Hundredths_eq_floor (n : ℤ) (i : ℕ) :
    toFixed2Hundredths n i = ⌊((n : ℚ) / 1024 ^ i) * 100 + 1 / 2⌋ := by
  have hpos : (0 : ℚ) < 1024 ^ i := by positivity
  have hcast :
      ((n : ℚ) / 1024 ^ i) * 100 + 1 / 2 =
        ((200 * n + 1024 ^ i : ℤ) : ℚ) / ((2 * 1024 ^ i : ℕ) : ℚ) := by
    push_cast
    field_simp
    ring
  rw [toFixed2Hundredths, hcast, Rat.floor_intCast_div_natCast]
  push_cast
  rfl

/-- The division chain the loop performs, stated on the rational value:
the loop runs exactly while the value is at least 1024 and the unit index
is below 4. -/
lemma unitIndex_rat_spec (n : ℤ) :
    (unitIndex n = 4 ∨ (n : ℚ) / 1024 ^ unitIndex n < 1024) ∧
      (∀ j, j < unitIndex n → 1024 ≤ (n : ℚ) / 1024 ^ j) := by
  have key : ∀ j : ℕ, (1024 ^ (j + 1) ≤ n ↔ 1024 ≤ (n : ℚ) / 1024 ^ j) := by
    intro j
    have hpos : (0 : ℚ) < 1024 ^ j := by positivity
    rw [le_div_iff₀ hpos]
    constructor
    · intro h
      have h2 : ((1024 ^ (j + 1) : ℤ) : ℚ) ≤ ((n : ℤ) : ℚ) := Int.cast_le.mpr h
      push_cast at h2
      calc (1024 : ℚ) * 1024 ^ j = 1024 ^ (j + 1) := by ring
      _ ≤ n := h2
    · intro h
      have : ((1024 ^ (j + 1) : ℤ) : ℚ) ≤ (n : ℚ) := by
        push_cast
        calc ((1024 : ℚ)) ^ (j + 1) = 1024 * 1024 ^ j := by ring
        _ ≤ n := h
      exact_mod_cast this
  constructor
  · rcases unitIndex_term n with h | h
    · exact Or.inl h
    · right
      by_contra hge
      push_neg at hge
      have := (key (unitIndex n)).mpr hge
      omega
  · intro j hj
    exact (key j).mp (unitIndex_while n j hj)

/-! ### Properties of the calendar conversion and the time formatter -/

/-- A nonpositive day number (an instant no later than 1970-01-01) has a
civil year at most 1970; in particular it can never satisfy the
1980-02-01 sentinel check. -/
lemma civilFromDays_year_le (d : ℤ) (hd : d ≤ 0) : (civilFromDays d).1 ≤ 1970 := by
  simp only [civilFromDays]
  split_ifs <;> omega

lemma parseBigInt_empty : parseBigInt "" = some 0 := rfl

lemma parseBigInt_zeroStr : parseBigInt "0" = some 0 := rfl

lemma formatFileTime_of_parse_none (tz : ℤ) (s : String) (h : parseBigInt s = none) :
    formatFileTime tz (some s) = .invalidDate := by
  have hne : ¬(s = "" ∨ s = "0") := by
    rintro (rfl | rfl)
    · rw [parseBigInt_empty] at h; cases h
    · rw [parseBigInt_zeroStr] at h; cases h
  simp [formatFileTime, hne, h]

lemma formatFileTime_of_parse_zero (tz : ℤ) (s : String) (h : parseBigInt s = some 0) :
    formatFileTime tz (some s) = .noDate := by
  by_cases hne : s = "" ∨ s = "0"
  · simp [formatFileTime, hne]
  · simp [formatFileTime, hne, h]

lemma formatFileTime_of_parse_ne_zero (tz : ℤ) (s : String) (t : ℤ)
    (h : parseBigInt s = some t) (ht : t ≠ 0) :
    formatFileTime tz (some s) =
      (if jsGetFullYear tz (Int.tdiv t 10000 - 11644473600000) = 1980 ∧
          jsGetMonth tz (Int.tdiv t 10000 - 11644473600000) = 1 ∧
          jsGetDate tz (Int.tdiv t 10000 - 11644473600000) = 1 then .noDate
       else .locale (Int.tdiv t 10000 - 11644473600000)) := by
  have hne : ¬(s = "" ∨ s = "0") := by
    rintro (rfl | rfl)
    · rw [parseBigInt_empty] at h
      exact ht (Option.some.inj h).symm
    · rw [parseBigInt_zeroStr] at h
      exact ht (Option.some.inj h).symm
  simp only [formatFileTime, hne, if_false, h, ht, ite_false]

/-! ### Substring test (for stating that an error message mentions a
phrase) -/

/-- Whether `needle` is a prefix of `hay` (on character lists). -/
def matchHere : List Char → List Char → Bool
  | [], _ => true
  | _ :: _, [] => false
  | c :: cs, d :: ds => c == d && matchHere cs ds

/-- Whether `needle` occurs somewhere in `hay`. -/
def containsList (needle : List Char) : List Char → Bool
  | [] => matchHere needle []
  | c :: rest => matchHere needle (c :: rest) || containsList needle rest

/-- Whether the string `needle` occurs as a substring of `hay`. -/
def strContains (hay needle : String) : Bool :=
  containsList needle.data hay.data

example :
    strContains connectionRefusedMessage
      "HTTP server is enabled in Everything\x27s settings" = true := by decide

/-! ### The claims -/

/-- C1, counterexample: for the upstream body `{totalResults: 3}` with no
`results` field the rendered text is `"Found 0 results:\n\nNo results
found"`, which differs from the `"Found 3 results:\n\nNo results found"`
the claim asserts — the code overwrites `totalResults` with 0 when
`results` is absent, so the header count is not preserved. -/
theorem claim1_counterexample :
    handleSearch 0 (fun _ => "")
        ⟨some (.str "x"), none, none, none, none, none, none, none, none, none⟩
        (.success (some ⟨some (.num 3), none⟩)) =
      .ok "Found 0 results:\n\nNo results found" ∧
    ("Found 0 results:\n\nNo results found" : String) ≠
      "Found 3 results:\n\nNo results found" :=
  ⟨rfl, by decide⟩

/-- C1, amended: if the upstream JSON body has a `totalResults` field but
no `results` field, the tool call does not fail: the results are
normalized to an empty sequence with `totalResults` coerced to 0, and for
an upstream body `{totalResults: 3}` with no `results` field the rendered
text output is exactly `"Found 0 results:\n\nNo results found"`. -/
theorem claim1_amended (tr : JVal) :
    searchFiles (.success (some ⟨some tr, none⟩)) = .ok ⟨.num 0, []⟩ ∧
    handleSearch 0 (fun _ => "")
        ⟨some (.str "x"), none, none, none, none, none, none, none, none, none⟩
        (.success (some ⟨some (.num 3), none⟩)) =
      .ok "Found 0 results:\n\nNo results found" :=
  ⟨rfl, rfl⟩

/-- C2, counterexample: the byte-size formatter applied to the decimal
string `"0"` returns `"0.00 bytes"`, not the `"N/A"` the claim asserts
(the falsy check `!size` does not fire on the non-empty string `"0"`,
and `parseInt("0")` succeeds). -/
theorem claim2_counterexample :
    formatFileSize (some "0") = "0.00 bytes" ∧ ("0.00 bytes" : String) ≠ "N/A" :=
  ⟨by decide, by decide⟩

/-- C2, amended: the byte-size formatter returns `"1.00 KB"` for input
`"1024"`, `"1.00 MB"` for input `"1048576"`, and `"N/A"` for absent,
empty or unparseable inputs — but `"0.00 bytes"` (not `"N/A"`) for the
input `"0"`; for every parseable input the quotient is divided repeatedly
by 1024 while ≥ 1024, the unit index is capped at 4 (`"TB"`), and the
result is the quotient rounded to two decimal places together with a unit
from `{bytes, KB, MB, GB, TB}`. -/
theorem claim2_amended (s : String) (n : ℤ) :
    formatFileSize none = "N/A" ∧
    formatFileSize (some "") = "N/A" ∧
    formatFileSize (some "1024") = "1.00 KB" ∧
    formatFileSize (some "1048576") = "1.00 MB" ∧
    formatFileSize (some "0") = "0.00 bytes" ∧
    (jsParseInt s = none → formatFileSize (some s) = "N/A") ∧
    (s ≠ "" → jsParseInt s = some n →
      formatFileSize (some s) =
        toFixed2Div n (unitIndex n) ++ " " ++ unitName (unitIndex n) ∧
      unitIndex n ≤ 4 ∧
      (unitIndex n = 4 ∨ (n : ℚ) / 1024 ^ unitIndex n < 1024) ∧
      (∀ j, j < unitIndex n → 1024 ≤ (n : ℚ) / 1024 ^ j) ∧
      toFixed2Hundredths n (unitIndex n) =
        ⌊((n : ℚ) / 1024 ^ unitIndex n) * 100 + 1 / 2⌋ ∧
      unitName (unitIndex n) ∈ ["bytes", "KB", "MB", "GB", "TB"]) := by
  refine ⟨by decide, by decide, by decide, by decide, by decide, ?_, ?_⟩
  · intro h
    by_cases hs : s = ""
    · subst hs; decide
    · simp [formatFileSize, hs, h]
  · intro hs h
    refine ⟨by simp [formatFileSize, hs, h], unitIndex_le n,
      (unitIndex_rat_spec n).1, (unitIndex_rat_spec n).2,
      toFixed2Hundredths_eq_floor n (unitIndex n), ?_⟩
    have h4 := unitIndex_le n
    have hcases : unitIndex n = 0 ∨ unitIndex n = 1 ∨ unitIndex n = 2 ∨
        unitIndex n = 3 ∨ unitIndex n = 4 := by omega
    rcases hcases with h0 | h0 | h0 | h0 | h0 <;> rw [h0] <;> decide

/-- C2, witness: the amended theorem applied at the parseable input
`"1048576"`. -/
theorem claim2_witness :
    formatFileSize (some "1048576") =
      toFixed2Div 1048576 (unitIndex 1048576) ++ " " ++ unitName (unitIndex 1048576) ∧
    unitIndex 1048576 ≤ 4 ∧
    (unitIndex 1048576 = 4 ∨ ((1048576 : ℤ) : ℚ) / 1024 ^ unitIndex 1048576 < 1024) ∧
    (∀ j, j < unitIndex 1048576 → 1024 ≤ ((1048576 : ℤ) : ℚ) / 1024 ^ j) ∧
    toFixed2Hundredths 1048576 (unitIndex 1048576) =
      ⌊(((1048576 : ℤ) : ℚ) / 1024 ^ unitIndex 1048576) * 100 + 1 / 2⌋ ∧
    unitName (unitIndex 1048576) ∈ ["bytes", "KB", "MB", "GB", "TB"] :=
  (claim2_amended "1048576" 1048576).2.2.2.2.2.2 (by decide) (by decide)

/-- C3, counterexample: the argument bag `{query: ""}` passes validation
(the schema is `z.string()` with no non-emptiness check), refuting the
claim that a request with an empty `query` fails validation. -/
theorem claim3_counterexample :
    SearchSchema.parse ⟨some (.str ""), none, none, none, none, none, none, none, none, none⟩ =
      some ⟨"", "C:", false, false, false, false, 32, .name, true, 0⟩ := by
  decide

/-- C3, amended: request validation fails if and only if `query` is
missing or not a string (the empty string is accepted), or `scope` is
present and not a string, or one of
`caseSensitive`/`wholeWord`/`regex`/`path`/`ascending` is present and not
a boolean, or `maxResults` is present and not a number in `[1, 1000]`, or
`sortBy` is present and not one of the four enumerated strings, or
`offset` is present and not a number `≥ 0`; and a validation failure
surfaces to the caller as a `ZodError` without retry. -/
theorem claim3_amended (a : ArgBag) (out : FetchOutcome) (tz : ℤ) (lf : ℤ → String) :
    ((SearchSchema.parse a).isSome =
      (queryAccepted a.query && stringFieldAccepted a.scope &&
       boolFieldAccepted a.caseSensitive && boolFieldAccepted a.wholeWord &&
       boolFieldAccepted a.regex && boolFieldAccepted a.path &&
       maxResultsAccepted a.maxResults && sortByAccepted a.sortBy &&
       boolFieldAccepted a.ascending && offsetAccepted a.offset)) ∧
    (SearchSchema.parse a = none → handleSearch tz lf a out = .error .validation) := by
  constructor
  · rw [parse_isSome_decomp, parseRequiredString_isSome, parseStringDefault_isSome,
      parseBoolDefault_isSome, parseBoolDefault_isSome, parseBoolDefault_isSome,
      parseBoolDefault_isSome, parseMaxResults_isSome, parseSortDefault_isSome,
      parseBoolDefault_isSome, parseOffset_isSome]
  · intro h
    simp [handleSearch, h]

/-- C3, witness: the amended theorem applied to the empty argument bag,
whose validation fails and surfaces as a validation error. -/
theorem claim3_witness :
    handleSearch 0 (fun _ => "")
        ⟨none, none, none, none, none, none, none, none, none, none⟩
        (.otherError "x") = .error .validation :=
  (claim3_amended ⟨none, none, none, none, none, none, none, none, none, none⟩
      (.otherError "x") 0 (fun _ => "")).2 rfl

/-- C4, counterexample: a request leaving `maxResults` unset is defaulted
to 32, not to the 100 the claim asserts (`SearchSchema` has
`.default(32)`). -/
theorem claim4_counterexample :
    (SearchSchema.parse
        ⟨some (.str "x"), none, none, none, none, none, none, none, none, none⟩).map
      SearchParams.maxResults = some 32 ∧ (32 : ℤ) ≠ 100 :=
  ⟨by decide, by decide⟩

/-- C4, amended: for every request that passes validation, each optional
field left unset takes exactly the schema's default before dispatch:
`scope = "C:"`, `caseSensitive = false`, `wholeWord = false`,
`regex = false`, `path = false`, `maxResults = 32`, `sortBy = name`,
`ascending = true`, `offset = 0`. -/
theorem claim4_amended (a : ArgBag) (p : SearchParams)
    (h : SearchSchema.parse a = some p) :
    (a.scope = none → p.scope = "C:") ∧
    (a.caseSensitive = none → p.caseSensitive = false) ∧
    (a.wholeWord = none → p.wholeWord = false) ∧
    (a.regex = none → p.regex = false) ∧
    (a.path = none → p.path = false) ∧
    (a.maxResults = none → p.maxResults = 32) ∧
    (a.sortBy = none → p.sortBy = .name) ∧
    (a.ascending = none → p.ascending = true) ∧
    (a.offset = none → p.offset = 0) := by
  obtain ⟨hq, hsc, hcs, hww, hrg, hpa, hmr, hsb, hasc, hoff⟩ := parse_fields a p h
  refine ⟨fun hn => ?_, fun hn => ?_, fun hn => ?_, fun hn => ?_, fun hn => ?_,
    fun hn => ?_, fun hn => ?_, fun hn => ?_, fun hn => ?_⟩
  · rw [hn] at hsc; exact (Option.some.inj hsc).symm
  · rw [hn] at hcs; exact (Option.some.inj hcs).symm
  · rw [hn] at hww; exact (Option.some.inj hww).symm
  · rw [hn] at hrg; exact (Option.some.inj hrg).symm
  · rw [hn] at hpa; exact (Option.some.inj hpa).symm
  · rw [hn] at hmr; exact (Option.some.inj hmr).symm
  · rw [hn] at hsb; exact (Option.some.inj hsb).symm
  · rw [hn] at hasc; exact (Option.some.inj hasc).symm
  · rw [hn] at hoff; exact (Option.some.inj hoff).symm

/-- C4, witness: the amended theorem applied to the bag `{query: "x"}`,
showing the defaulted `scope` and `maxResults`. -/
theorem claim4_witness :
    (⟨"x", "C:", false, false, false, false, 32, .name, true, 0⟩ : SearchParams).scope = "C:" ∧
    (⟨"x", "C:", false, false, false, false, 32, .name, true, 0⟩ :
      SearchParams).maxResults = 32 := by
  have h := claim4_amended
    ⟨some (.str "x"), none, none, none, none, none, none, none, none, none⟩
    ⟨"x", "C:", false, false, false, false, 32, .name, true, 0⟩ rfl
  exact ⟨h.1 rfl, h.2.2.2.2.2.1 rfl⟩

/-- C5, counterexample: the decimal tick string `"00"` has the `BigInt`
value 0, whose date (1601-01-01) is not 1980-02-01, so per the claim it
should be locale-rendered; the formatter instead returns "No date"
because of the `bigIntTime === 0n` value check. -/
theorem claim5_counterexample :
    formatFileTime 0 (some "00") = .noDate ∧
    TimeRender.noDate ≠ .locale (Int.tdiv 0 10000 - 11644473600000) :=
  ⟨by decide, by decide⟩

/-- C5, amended: the timestamp formatter maps the inputs `""`, `"0"`, and
absent to "No date", and also any tick string whose `BigInt` value is 0;
any non-numeric input (`BigInt` conversion failure) yields "Invalid
date"; for any other decimal tick string it converts to milliseconds
since the 1970 epoch by dividing by 10,000 (truncating) and subtracting
11,644,473,600,000, renders a locale calendar string — except that a tick
value whose resulting date falls on (local) 1980-02-01 is rendered as "No
date". -/
theorem claim5_amended (tz : ℤ) (s : String) (t : ℤ) :
    formatFileTime tz none = .noDate ∧
    formatFileTime tz (some "") = .noDate ∧
    formatFileTime tz (some "0") = .noDate ∧
    (parseBigInt s = none → formatFileTime tz (some s) = .invalidDate) ∧
    (parseBigInt s = some 0 → formatFileTime tz (some s) = .noDate) ∧
    (parseBigInt s = some t → t ≠ 0 →
      ((jsGetFullYear tz (Int.tdiv t 10000 - 11644473600000) = 1980 ∧
        jsGetMonth tz (Int.tdiv t 10000 - 11644473600000) = 1 ∧
        jsGetDate tz (Int.tdiv t 10000 - 11644473600000) = 1) →
        formatFileTime tz (some s) = .noDate) ∧
      (¬(jsGetFullYear tz (Int.tdiv t 10000 - 11644473600000) = 1980 ∧
         jsGetMonth tz (Int.tdiv t 10000 - 11644473600000) = 1 ∧
         jsGetDate tz (Int.tdiv t 10000 - 11644473600000) = 1) →
        formatFileTime tz (some s) =
          .locale (Int.tdiv t 10000 - 11644473600000))) := by
  refine ⟨rfl, by simp [formatFileTime], by simp [formatFileTime],
    formatFileTime_of_parse_none tz s, formatFileTime_of_parse_zero tz s, fun h ht => ?_⟩
  rw [formatFileTime_of_parse_ne_zero tz s t h ht]
  exact ⟨fun hg => if_pos hg, fun hg => if_neg hg⟩

/-- C5, witness: the amended theorem applied at the 1980-02-01 sentinel
tick, at a 2012 tick (locale-rendered), and at a non-numeric input. -/
theorem claim5_witness :
    formatFileTime 0 (some "119626848000000000") = .noDate ∧
    formatFileTime 0 (some "130000000000000000") = .locale 1355526400000 ∧
    formatFileTime 0 (some "12abc") = .invalidDate := by
  refine ⟨?_, ?_, ?_⟩
  · exact ((claim5_amended 0 "119626848000000000" 119626848000000000).2.2.2.2.2
      (by decide) (by decide)).1 (by decide)
  · exact ((claim5_amended 0 "130000000000000000" 130000000000000000).2.2.2.2.2
      (by decide) (by decide)).2 (by decide)
  · exact (claim5_amended 0 "12abc" 0).2.2.2.1 (by decide)

/-- C6: for every validated request, the effective search term sent
upstream is `scope ++ separator ++ query` whenever `scope` is non-empty,
where the backslash separator is omitted if `scope` already ends with a
backslash; the plain `query` is used only when `scope` is empty. -/
theorem claim6 (p : SearchParams) :
    (p.scope = "" → effectiveQuery p = p.query) ∧
    (p.scope ≠ "" → endsWithBackslash p.scope = true →
      effectiveQuery p = p.scope ++ p.query) ∧
    (p.scope ≠ "" → endsWithBackslash p.scope = false →
      effectiveQuery p = p.scope ++ "\\" ++ p.query) := by
  unfold effectiveQuery
  refine ⟨fun h => ?_, fun h hb => ?_, fun h hb => ?_⟩
  · simp [h]
  · simp [h, hb]
  · simp [h, hb]

/-- C6, witness: the scope rule applied at a bare scope, a
backslash-terminated scope, and an empty scope. -/
theorem claim6_witness :
    effectiveQuery ⟨"q", "C:", false, false, false, false, 32, .name, true, 0⟩ =
      "C:" ++ "\\" ++ "q" ∧
    effectiveQuery ⟨"q", "C:\\", false, false, false, false, 32, .name, true, 0⟩ =
      "C:\\" ++ "q" ∧
    effectiveQuery ⟨"q", "", false, false, false, false, 32, .name, true, 0⟩ = "q" := by
  refine ⟨?_, ?_, ?_⟩
  · exact (claim6 ⟨"q", "C:", false, false, false, false, 32, .name, true, 0⟩).2.2
      (by decide) (by decide)
  · exact (claim6 ⟨"q", "C:\\", false, false, false, false, 32, .name, true, 0⟩).2.1
      (by decide) (by decide)
  · exact (claim6 ⟨"q", "", false, false, false, false, 32, .name, true, 0⟩).1 rfl

/-- C7: for every request that passes validation, the outbound HTTP query
carries exactly the documented parameters — `search`, `json=1`,
`path_column=1`, `size_column=1`, `date_modified_column=1`, the four 0/1
encoded booleans, `count=maxResults`, `offset=offset`, `sort=sortBy`,
`ascending` as 0/1 — and the `count` value sent is in `[1, 1000]`. -/
theorem claim7 (a : ArgBag) (p : SearchParams) (h : SearchSchema.parse a = some p) :
    buildQueryParams p =
      [("search", .str (effectiveQuery p)),
       ("json", .num 1),
       ("path_column", .num 1),
       ("size_column", .num 1),
       ("date_modified_column", .num 1),
       ("case", .num (if p.caseSensitive then 1 else 0)),
       ("wholeword", .num (if p.wholeWord then 1 else 0)),
       ("regex", .num (if p.regex then 1 else 0)),
       ("path", .num (if p.path then 1 else 0)),
       ("count", .num p.maxResults),
       ("offset", .num p.offset),
       ("sort", .str p.sortBy.toParam),
       ("ascending", .num (if p.ascending then 1 else 0))] ∧
    1 ≤ p.maxResults ∧ p.maxResults ≤ 1000 := by
  obtain ⟨-, -, -, -, -, -, hmr, -, -, -⟩ := parse_fields a p h
  exact ⟨rfl, parseNumberRange_mem_range 1 1000 32 a.maxResults p.maxResults
    (by norm_num) hmr⟩

/-- C7, witness: the count bound at the defaulted request `{query: "x"}`. -/
theorem claim7_witness :
    1 ≤ (⟨"x", "C:", false, false, false, false, 32, .name, true, 0⟩ :
        SearchParams).maxResults ∧
    (⟨"x", "C:", false, false, false, false, 32, .name, true, 0⟩ :
        SearchParams).maxResults ≤ 1000 :=
  (claim7 ⟨some (.str "x"), none, none, none, none, none, none, none, none, none⟩
      ⟨"x", "C:", false, false, false, false, 32, .name, true, 0⟩ rfl).2

/-- C8, counterexample: a response body whose `totalResults` is the
string `"three"` — i.e. a body lacking a *numeric* `totalResults` — does
not raise the invalid-response error: `searchFiles` succeeds, because the
code only tests `typeof totalResults === 'undefined'` (presence), not
numeric-ness. -/
theorem claim8_counterexample :
    searchFiles (.success (some ⟨some (.str "three"), some []⟩)) =
      .ok ⟨.str "three", []⟩ ∧
    (JVal.str "three" ≠ .num 3) :=
  ⟨rfl, by decide⟩

/-- C8, amended: transport failures are classified exactly as: connection
refused raises an error whose message mentions enabling the HTTP server
in Everything's settings; a timeout raises a distinct timeout error; a
falsy response body or one lacking a `totalResults` field (of any type)
raises an invalid-response error; any other axios failure raises an error
carrying the underlying message and a non-axios error is rethrown
unchanged — no failure path is retried or suppressed. -/
theorem claim8_amended (code : Option String) (msg : String) (body : RespBody) :
    searchFiles (.axiosError (some "ECONNREFUSED") msg) =
      .error connectionRefusedMessage ∧
    strContains connectionRefusedMessage
      "HTTP server is enabled in Everything\x27s settings" = true ∧
    searchFiles (.axiosError (some "ETIMEDOUT") msg) = .error timeoutMessage ∧
    timeoutMessage ≠ connectionRefusedMessage ∧
    searchFiles (.success none) = .error invalidResponseMessage ∧
    (body.totalResults = none →
      searchFiles (.success (some body)) = .error invalidResponseMessage) ∧
    (code ≠ some "ECONNREFUSED" → code ≠ some "ETIMEDOUT" →
      searchFiles (.axiosError code msg) =
        .error ("Everything Search API error: " ++ msg)) ∧
    searchFiles (.otherError msg) = .error msg := by
  refine ⟨rfl, by decide, by simp [searchFiles], by decide, rfl, fun h => ?_,
    fun h1 h2 => ?_, rfl⟩
  · simp [searchFiles, h]
  · simp [searchFiles, h1, h2]

/-- C8, witness: the amended classification applied to a body with no
`totalResults` and to an unrecognised axios error code. -/
theorem claim8_witness :
    searchFiles (.success (some ⟨none, none⟩)) = .error invalidResponseMessage ∧
    searchFiles (.axiosError (some "EBAD") "boom") =
      .error ("Everything Search API error: " ++ "boom") :=
  ⟨(claim8_amended (some "EBAD") "boom" ⟨none, none⟩).2.2.2.2.2.1 rfl,
   (claim8_amended (some "EBAD") "boom" ⟨none, none⟩).2.2.2.2.2.2.1
     (by decide) (by decide)⟩

/-- C9: for a zero-length result list the rendered body is "No results
found"; for a non-empty list the output is the count header
`Found N results:` followed by one block per entry of the exact
Name/Path/Size/Modified form, blocks separated by a blank line, in the
order returned by the engine (the map preserves order; no client-side
re-sorting); and an entry whose `type` marks it a folder renders its Size
as the literal `"(folder)"` regardless of its size value. -/
theorem claim9 (tz : ℤ) (lf : ℤ → String) (resp : NormalizedResponse) (r : RawResult) :
    (resp.results = [] →
      renderResults tz lf resp =
        "Found " ++ jvalDisplay resp.totalResults ++ " results:\n\n" ++
          "No results found") ∧
    (resp.results ≠ [] →
      renderResults tz lf resp =
        "Found " ++ jvalDisplay resp.totalResults ++ " results:\n\n" ++
          String.intercalate "\n" (resp.results.map (formatResultBlock tz lf))) ∧
    formatResultBlock tz lf r =
      "Name: " ++ r.name ++ "\nPath: " ++ r.path ++ "\nSize: " ++ sizeRendered r ++
        "\nModified: " ++ (formatFileTime tz r.date_modified).render lf ++ "\n" ∧
    (r.type = some "folder" → sizeRendered r = "(folder)") := by
  refine ⟨fun h => ?_, fun h => ?_, rfl, fun h => ?_⟩
  · simp [renderResults, h]
  · have hl : resp.results.length > 0 := List.length_pos.mpr h
    simp [renderResults, hl]
  · simp [sizeRendered, h]

/-- C9, witness: the rendering applied to an empty response, to a
two-entry response, and to a folder entry. -/
theorem claim9_witness :
    renderResults 0 (fun _ => "LOCALE") ⟨.num 0, []⟩ =
      "Found " ++ jvalDisplay (.num 0) ++ " results:\n\n" ++ "No results found" ∧
    renderResults 0 (fun _ => "LOCALE")
        ⟨.num 2, [⟨"a.txt", "C:\\a.txt", some "1024", some "0", none⟩,
                  ⟨"d", "C:\\d", some "999", some "0", some "folder"⟩]⟩ =
      "Found " ++ jvalDisplay (.num 2) ++ " results:\n\n" ++
        String.intercalate "\n"
          ([⟨"a.txt", "C:\\a.txt", some "1024", some "0", none⟩,
            ⟨"d", "C:\\d", some "999", some "0", some "folder"⟩].map
            (formatResultBlock 0 (fun _ => "LOCALE"))) ∧
    sizeRendered ⟨"d", "C:\\d", some "999", some "0", some "folder"⟩ = "(folder)" := by
  refine ⟨?_, ?_, ?_⟩
  · exact (claim9 0 (fun _ => "LOCALE") ⟨.num 0, []⟩
      ⟨"d", "C:\\d", some "999", some "0", some "folder"⟩).1 rfl
  · exact (claim9 0 (fun _ => "LOCALE")
      ⟨.num 2, [⟨"a.txt", "C:\\a.txt", some "1024", some "0", none⟩,
                ⟨"d", "C:\\d", some "999", some "0", some "folder"⟩]⟩
      ⟨"d", "C:\\d", some "999", some "0", some "folder"⟩).2.1 (by decide)
  · exact (claim9 0 (fun _ => "LOCALE") ⟨.num 0, []⟩
      ⟨"d", "C:\\d", some "999", some "0", some "folder"⟩).2.2.2 rfl

/-- C10: for every decimal tick string whose `BigInt` value is strictly
between 0 and 116,444,736,000,000,000 (the 1970 epoch in 100 ns ticks),
the timestamp formatter returns a locale-rendered calendar value for a
negative (pre-1970) Unix millisecond instant — not "No date" and not
"Invalid date" — because no guard rejects negative millisecond values
after the epoch subtraction (the 1980-02-01 sentinel cannot fire, the
local year being at most 1970; `tz` is the host timezone offset, at most
one day in magnitude). -/
theorem claim10 (tz : ℤ) (s : String) (t : ℤ)
    (htzl : -86400000 ≤ tz) (htzu : tz ≤ 86400000)
    (hp : parseBigInt s = some t) (h0 : 0 < t) (hlt : t < 116444736000000000) :
    formatFileTime tz (some s) = .locale (Int.tdiv t 10000 - 11644473600000) ∧
    Int.tdiv t 10000 - 11644473600000 < 0 ∧
    formatFileTime tz (some s) ≠ .noDate ∧
    formatFileTime tz (some s) ≠ .invalidDate := by
  have htd : Int.tdiv t 10000 = t / 10000 := Int.tdiv_eq_ediv (by omega) (by norm_num)
  have hu : Int.tdiv t 10000 - 11644473600000 < 0 := by rw [htd]; omega
  have hdays : localDays tz (Int.tdiv t 10000 - 11644473600000) ≤ 0 := by
    unfold localDays
    rw [htd]
    omega
  have hyear : jsGetFullYear tz (Int.tdiv t 10000 - 11644473600000) ≤ 1970 :=
    civilFromDays_year_le _ hdays
  have hg : ¬(jsGetFullYear tz (Int.tdiv t 10000 - 11644473600000) = 1980 ∧
      jsGetMonth tz (Int.tdiv t 10000 - 11644473600000) = 1 ∧
      jsGetDate tz (Int.tdiv t 10000 - 11644473600000) = 1) := by
    rintro ⟨hy, -, -⟩
    omega
  have heq := formatFileTime_of_parse_ne_zero tz s t hp (by omega)
  rw [heq, if_neg hg]
  exact ⟨rfl, hu, by simp, by simp⟩

/-- C10, witness: the theorem applied at UTC to the tick string
`"10000000"` (one second after 1601-01-01). -/
theorem claim10_witness :
    formatFileTime 0 (some "10000000") =
      .locale (Int.tdiv 10000000 10000 - 11644473600000) ∧
    Int.tdiv 10000000 10000 - 11644473600000 < 0 ∧
    formatFileTime 0 (some "10000000") ≠ .noDate ∧
    formatFileTime 0 (some "10000000") ≠ .invalidDate :=
  claim10 0 "10000000" 10000000 (by decide) (by decide) (by decide) (by decide)
    (by decide)

end EverythingSearch
